import Mathlib

/-!
Shallow embedding of the twurst Twirp runtime (error model, ProtoPathMap,
client request building, server fallback and streaming framing), translated
from the Rust sources, together with theorems checking the natural-language
specification against it.
-/

namespace Twurst

/-- The Twirp error codes, from `TwirpErrorCode` in `error/src/lib.rs`. -/
inductive TwirpErrorCode
  | canceled
  | unknown
  | invalidArgument
  | malformed
  | deadlineExceeded
  | notFound
  | badRoute
  | alreadyExists
  | permissionDenied
  | unauthenticated
  | resourceExhausted
  | failedPrecondition
  | aborted
  | outOfRange
  | unimplemented
  | internal
  | unavailable
  | dataloss
  deriving DecidableEq, Repr

/-- gRPC status codes (`tonic::Code`), an external collaborator type. -/
inductive GrpcCode
  | ok
  | cancelled
  | unknown
  | invalidArgument
  | deadlineExceeded
  | notFound
  | alreadyExists
  | permissionDenied
  | resourceExhausted
  | failedPrecondition
  | aborted
  | outOfRange
  | unimplemented
  | internal
  | unavailable
  | dataLoss
  | unauthenticated
  deriving DecidableEq, Repr

/-- A gRPC `tonic::Status`: code, message and opaque binary details. -/
structure GrpcStatus where
  code : GrpcCode
  message : String
  details : List Nat
  deriving DecidableEq, Repr

/-- The opaque `source` of a `TwirpError` (`Arc<dyn Error>` in Rust). The
conversion to a gRPC status downcasts it to a `tonic::Status`, so the model
distinguishes a wrapped status from every other kind of cause. -/
inductive ErrSource
  | status (s : GrpcStatus)
  | other (description : String)
  deriving DecidableEq, Repr

/-- `TwirpError` from `error/src/lib.rs`: code, message, metadata and an
optional cause. Note that the Rust `PartialEq` ignores `source`. -/
structure TwirpError where
  code : TwirpErrorCode
  msg : String
  meta : List (String × String)
  source : Option ErrSource
  deriving DecidableEq, Repr

namespace TwirpError

/-- `TwirpError::new` -/
def new (code : TwirpErrorCode) (msg : String) : TwirpError :=
  ⟨code, msg, [], none⟩

/-- `TwirpError::wrap` -/
def wrap (code : TwirpErrorCode) (msg : String) (e : ErrSource) : TwirpError :=
  ⟨code, msg, [], some e⟩

/-- Rust `PartialEq for TwirpError`: compares `(code, msg, meta)` only. -/
def rustEq (a b : TwirpError) : Bool :=
  a.code = b.code ∧ a.msg = b.msg ∧ a.meta = b.meta

end TwirpError

/-- `impl From<TwirpErrorCode> for http::StatusCode` (error/src/lib.rs,
lines 258-282): the outbound Twirp-code-to-HTTP-status table. -/
def httpStatusForCode : TwirpErrorCode → Nat
  | .canceled => 408
  | .unknown => 500
  | .invalidArgument => 400
  | .malformed => 400
  | .deadlineExceeded => 408
  | .notFound => 404
  | .badRoute => 404
  | .alreadyExists => 409
  | .permissionDenied => 403
  | .unauthenticated => 401
  | .resourceExhausted => 429
  | .failedPrecondition => 412
  | .aborted => 409
  | .outOfRange => 400
  | .unimplemented => 501
  | .internal => 500
  | .unavailable => 503
  | .dataloss => 503

/-- The snake-case token serde emits for each `TwirpErrorCode`
(`serde(rename_all = "snake_case")`). -/
def codeToken : TwirpErrorCode → String
  | .canceled => "canceled"
  | .unknown => "unknown"
  | .invalidArgument => "invalid_argument"
  | .malformed => "malformed"
  | .deadlineExceeded => "deadline_exceeded"
  | .notFound => "not_found"
  | .badRoute => "bad_route"
  | .alreadyExists => "already_exists"
  | .permissionDenied => "permission_denied"
  | .unauthenticated => "unauthenticated"
  | .resourceExhausted => "resource_exhausted"
  | .failedPrecondition => "failed_precondition"
  | .aborted => "aborted"
  | .outOfRange => "out_of_range"
  | .unimplemented => "unimplemented"
  | .internal => "internal"
  | .unavailable => "unavailable"
  | .dataloss => "dataloss"

/-- Hex digit for a value below 16, as used by serde_json `\u00XX` escapes. -/
def hexDigit (n : Nat) : Char :=
  if n < 10 then Char.ofNat (48 + n) else Char.ofNat (87 + n)

/-- serde_json escaping of a single character inside a JSON string. -/
def escapeJsonChar (c : Char) : String :=
  if c = '"' then "\\\""
  else if c = '\\' then "\\\\"
  else if c = Char.ofNat 8 then "\\b"
  else if c = Char.ofNat 9 then "\\t"
  else if c = Char.ofNat 10 then "\\n"
  else if c = Char.ofNat 12 then "\\f"
  else if c = Char.ofNat 13 then "\\r"
  else if c.toNat < 32 then
    String.mk ['\\', 'u', '0', '0', hexDigit (c.toNat / 16), hexDigit (c.toNat % 16)]
  else String.singleton c

/-- serde_json serialization of a string value. -/
def jsonString (s : String) : String :=
  "\"" ++ String.join (s.data.map escapeJsonChar) ++ "\""

/-- serde_json serialization of the `meta` map (one entry per key). -/
def jsonMeta (meta : List (String × String)) : String :=
  "\x7b" ++ String.intercalate ","
    (meta.map fun kv => jsonString kv.1 ++ ":" ++ jsonString kv.2) ++ "\x7d"

/-- `serde_json::to_string` of a `TwirpError`: the derived `Serialize` with
`meta` skipped when empty and `source` always skipped. -/
def twirpErrorJson (e : TwirpError) : String :=
  "\x7b\"code\":" ++ jsonString (codeToken e.code) ++ ",\"msg\":" ++ jsonString e.msg ++
    (if e.meta.isEmpty then "" else ",\"meta\":" ++ jsonMeta e.meta) ++ "\x7d"

/-- UTF-8 encoding of one character (scalar value), byte list form. -/
def charUtf8 (c : Char) : List Nat :=
  let n := c.toNat
  if n < 0x80 then [n]
  else if n < 0x800 then [0xc0 + n / 64, 0x80 + n % 64]
  else if n < 0x10000 then [0xe0 + n / 4096, 0x80 + n / 64 % 64, 0x80 + n % 64]
  else [0xf0 + n / 262144, 0x80 + n / 4096 % 64, 0x80 + n / 64 % 64, 0x80 + n % 64]

/-- UTF-8 encoding of a string as a byte list. -/
def utf8Bytes (s : String) : List Nat :=
  s.data.flatMap charUtf8

/-- The Unicode replacement character emitted by lossy decoding. -/
def replacementChar : Char := Char.ofNat 0xfffd

/-- Whether `b1` is an acceptable second byte after leading byte `b0`,
following the ranges used by the Rust core UTF-8 validator. -/
def utf8SecondOk (b0 b1 : Nat) : Bool :=
  if b0 = 0xe0 then 0xa0 ≤ b1 ∧ b1 ≤ 0xbf
  else if b0 = 0xed then 0x80 ≤ b1 ∧ b1 ≤ 0x9f
  else if b0 = 0xf0 then 0x90 ≤ b1 ∧ b1 ≤ 0xbf
  else if b0 = 0xf4 then 0x80 ≤ b1 ∧ b1 ≤ 0x8f
  else 0x80 ≤ b1 ∧ b1 ≤ 0xbf

/-- Whether `b` is a UTF-8 continuation byte. -/
def utf8Cont (b : Nat) : Bool :=
  0x80 ≤ b ∧ b ≤ 0xbf

/-- Model of `String::from_utf8_lossy` at the character level, with fuel for
structural recursion (every step consumes at least one byte, so byte-count
fuel is enough). Valid sequences decode to their scalar value. An invalid
sequence is replaced by a single replacement character covering its maximal
valid subpart, as in the Rust core validator (`Utf8Error::error_len`): an
invalid leading or second byte replaces one byte, an invalid third byte
replaces the leading two, an invalid fourth byte replaces the leading three,
and decoding resumes at the first byte after the replaced subpart; a
truncated trailing sequence becomes one replacement character. -/
def utf8DecodeLossy : Nat → List Nat → List Char
  | 0, _ => []
  | _, [] => []
  | fuel + 1, b0 :: rest =>
    if b0 < 0x80 then Char.ofNat b0 :: utf8DecodeLossy fuel rest
    else if 0xc2 ≤ b0 ∧ b0 ≤ 0xdf then
      match rest with
      | b1 :: rest1 =>
        if utf8Cont b1 then
          Char.ofNat ((b0 - 0xc0) * 0x40 + (b1 - 0x80)) :: utf8DecodeLossy fuel rest1
        else replacementChar :: utf8DecodeLossy fuel (b1 :: rest1)
      | [] => [replacementChar]
    else if 0xe0 ≤ b0 ∧ b0 ≤ 0xef then
      match rest with
      | b1 :: rest1 =>
        if utf8SecondOk b0 b1 then
          match rest1 with
          | b2 :: rest2 =>
            if utf8Cont b2 then
              Char.ofNat ((b0 - 0xe0) * 0x1000 + (b1 - 0x80) * 0x40 + (b2 - 0x80)) ::
                utf8DecodeLossy fuel rest2
            else replacementChar :: utf8DecodeLossy fuel (b2 :: rest2)
          | [] => [replacementChar]
        else replacementChar :: utf8DecodeLossy fuel (b1 :: rest1)
      | [] => [replacementChar]
    else if 0xf0 ≤ b0 ∧ b0 ≤ 0xf4 then
      match rest with
      | b1 :: rest1 =>
        if utf8SecondOk b0 b1 then
          match rest1 with
          | b2 :: rest2 =>
            if utf8Cont b2 then
              match rest2 with
              | b3 :: rest3 =>
                if utf8Cont b3 then
                  Char.ofNat ((b0 - 0xf0) * 0x40000 + (b1 - 0x80) * 0x1000 +
                      (b2 - 0x80) * 0x40 + (b3 - 0x80)) ::
                    utf8DecodeLossy fuel rest3
                else replacementChar :: utf8DecodeLossy fuel (b3 :: rest3)
              | [] => [replacementChar]
            else replacementChar :: utf8DecodeLossy fuel (b2 :: rest2)
          | [] => [replacementChar]
        else replacementChar :: utf8DecodeLossy fuel (b1 :: rest1)
      | [] => [replacementChar]
    else replacementChar :: utf8DecodeLossy fuel rest

/-- Model of `String::from_utf8_lossy` as a `String`. -/
def fromUtf8Lossy (bytes : List Nat) : String :=
  String.mk (utf8DecodeLossy bytes.length bytes)

/-- An HTTP response as the error conversions see it: status code, the
`Content-Type` header, the `TwirpError` extension slot and the collected
body bytes. -/
structure HttpResponse where
  status : Nat
  contentType : Option String
  extensionError : Option TwirpError
  body : List Nat
  deriving DecidableEq, Repr

/-- `impl From<TwirpError> for http::Response<B>` (error/src/lib.rs, lines
285-295): status from the code table, `Content-Type: application/json`,
the error stored as an extension, body the serde JSON serialization. -/
def TwirpError.toResponse (e : TwirpError) : HttpResponse :=
  { status := httpStatusForCode e.code
    contentType := some "application/json"
    extensionError := some e
    body := utf8Bytes (twirpErrorJson e) }

/-- The status-to-code fallback chain of
`impl From<http::Response<B>> for TwirpError` (error/src/lib.rs, lines
312-338), translated condition by condition. `is_server_error` is
500..=599 and `is_client_error` is 400..=499. -/
def twirpCodeForStatus (status : Nat) : TwirpErrorCode :=
  if status = 408 then .deadlineExceeded
  else if status = 403 then .permissionDenied
  else if status = 401 then .unauthenticated
  else if status = 429 then .resourceExhausted
  else if status = 412 then .failedPrecondition
  else if status = 501 then .unimplemented
  else if status = 429 ∨ status = 502 ∨ status = 503 ∨ status = 504 then .unavailable
  else if status = 404 then .notFound
  else if 500 ≤ status ∧ status ≤ 599 then .internal
  else if 400 ≤ status ∧ status ≤ 499 then .malformed
  else .unknown

/-- `impl From<http::Response<B>> for TwirpError` (error/src/lib.rs, lines
298-341). The serde_json body parse is an external collaborator, passed in
as `parse`: it returns the error when the body is canonical `TwirpError`
JSON and `none` otherwise. -/
def twirpErrorFromResponse (parse : List Nat → Option TwirpError)
    (r : HttpResponse) : TwirpError :=
  match r.extensionError with
  | some e => e
  | none =>
    match parse r.body with
    | some e => e
    | none => TwirpError.new (twirpCodeForStatus r.status) (fromUtf8Lossy r.body)

/-- `path.splitn(2, '.').nth(1)`: the part after the first dot, when the
path holds a dot. Character-list form. -/
def afterFirstDot : List Char → Option (List Char)
  | [] => none
  | c :: rest => if c = '.' then some rest else afterFirstDot rest

/-- `path.rsplitn(2, '.').nth(1)`: the part before the last dot, when the
path holds a dot. -/
def beforeLastDot (cs : List Char) : Option (List Char) :=
  (afterFirstDot cs.reverse).map List.reverse

/-- One step of `suffixes` in build/src/proto_path_map.rs (lines 102-108):
drop the leading segment, keeping only a non-empty remainder. -/
def suffixStep (cs : List Char) : Option (List Char) :=
  match afterFirstDot cs with
  | some r => if r.isEmpty then none else some r
  | none => none

/-- One step of `prefixes` in build/src/proto_path_map.rs (lines 90-96):
drop the trailing segment, keeping only a non-empty remainder. -/
def parentStep (cs : List Char) : Option (List Char) :=
  match beforeLastDot cs with
  | some r => if r.isEmpty then none else some r
  | none => none

/-- `std::iter::successors(Some(p), step).skip(1)` collected, with enough
fuel: the sequence of iterated steps after `p` itself. -/
def iterateSteps (step : List Char → Option (List Char)) :
    Nat → List Char → List (List Char)
  | 0, _ => []
  | fuel + 1, cs =>
    match step cs with
    | some nxt => nxt :: iterateSteps step fuel nxt
    | none => []

/-- `suffixes` from build/src/proto_path_map.rs: all paths obtained by
repeatedly dropping the leading segment, in decreasing length order. Each
step shortens the path, so `length` fuel is enough. -/
def pathSuffixes (s : String) : List String :=
  (iterateSteps suffixStep s.data.length s.data).map String.mk

/-- `prefixes` from build/src/proto_path_map.rs: all paths obtained by
repeatedly dropping the trailing segment, in decreasing length order. -/
def pathParents (s : String) : List String :=
  (iterateSteps parentStep s.data.length s.data).map String.mk

/-- `sub_path_iter` from build/src/proto_path_map.rs (lines 75-84): the
path itself, its suffixes, its strict parents, then the global `"."`. -/
def subPathIter (s : String) : List String :=
  s :: (pathSuffixes s ++ pathParents s ++ ["."])

/-- `Iter::is_match` (build/src/proto_path_map.rs line 44):
`sub_path_iter(self.path).any(|p| p == path)`. -/
def isMatch (path matcher : String) : Bool :=
  (subPathIter path).any fun p => p = matcher

/-- `ProtoPathMap` (build/src/proto_path_map.rs): an insertion-ordered list
of `(matcher, value)` pairs. -/
structure ProtoPathMap (V : Type) where
  matchers : List (String × V)
  deriving DecidableEq, Repr

/-- `ProtoPathMap::insert`: appends. -/
def ProtoPathMap.insert {V : Type} (m : ProtoPathMap V) (matcher : String) (v : V) :
    ProtoPathMap V :=
  ⟨m.matchers ++ [(matcher, v)]⟩

/-- `Iter::next` (build/src/proto_path_map.rs lines 52-63): advance through
the remaining pairs until one matches, returning its value and the rest. -/
def iterNext {V : Type} (path : String) :
    List (String × V) → Option (V × List (String × V))
  | [] => none
  | (p, v) :: rest => if isMatch path p then some (v, rest) else iterNext path rest

/-- Repeatedly call `iterNext` (at most `fuel` times), collecting the yielded
values: the sequence an exhausted `Iter` produces. -/
def iterUnfold {V : Type} (path : String) :
    Nat → List (String × V) → List V
  | 0, _ => []
  | fuel + 1, l =>
    match iterNext path l with
    | none => []
    | some (v, rest) => v :: iterUnfold path fuel rest

/-- The full sequence yielded by `Iter`: every `next` call consumes at least
one pair, so `length` fuel exhausts the iterator. -/
def iterAll {V : Type} (path : String) (l : List (String × V)) : List V :=
  iterUnfold path l.length l

/-- `ProtoPathMap::fq_path_matches` collected into a list. -/
def ProtoPathMap.fqPathMatches {V : Type} (m : ProtoPathMap V) (fqPath : String) :
    List V :=
  iterAll fqPath m.matchers

/-- The fields of `prost_build::Service` that determine the fully-qualified
path (its other fields — local name, methods, comments, options — do not
enter the matching). -/
structure Service where
  package : String
  protoName : String
  deriving DecidableEq, Repr

/-- The fq path computed by `ProtoPathMap::service_matches`:
`format!(".{}.{}", service.package, service.proto_name)`. -/
def serviceFqPath (s : Service) : String :=
  "." ++ s.package ++ "." ++ s.protoName

/-- `ProtoPathMap::service_matches` collected into a list. -/
def ProtoPathMap.serviceMatches {V : Type} (m : ProtoPathMap V) (s : Service) :
    List V :=
  m.fqPathMatches (serviceFqPath s)

/-- The configuration fields of `TwirpServiceGenerator` (build/src/lib.rs
lines 314-322) that drive extractor selection. -/
structure TwirpServiceGenerator where
  defaultRequestExtractors : List (String × String)
  matchedRequestExtractors : ProtoPathMap (String × String)
  deriving DecidableEq, Repr

/-- `with_default_axum_request_extractor` (build/src/lib.rs lines 344-352). -/
def TwirpServiceGenerator.withDefaultAxumRequestExtractor
    (g : TwirpServiceGenerator) (name typeName : String) : TwirpServiceGenerator :=
  { g with defaultRequestExtractors := g.defaultRequestExtractors ++ [(name, typeName)] }

/-- `with_service_specific_axum_request_extractor` (build/src/lib.rs lines
355-364). -/
def TwirpServiceGenerator.withServiceSpecificAxumRequestExtractor
    (g : TwirpServiceGenerator) (name typeName serviceProtoPath : String) :
    TwirpServiceGenerator :=
  { g with matchedRequestExtractors :=
      g.matchedRequestExtractors.insert serviceProtoPath (name, typeName) }

/-- The extractor selection at the head of `TwirpServiceGenerator::do_generate`
(build/src/lib.rs lines 375-385): peek the service matches; collect them when
any exists, fall back to the default extractors otherwise. -/
def doGenerateExtractors (g : TwirpServiceGenerator) (svc : Service) :
    List (String × String) :=
  let serviceMatchList := g.matchedRequestExtractors.serviceMatches svc
  if serviceMatchList.isEmpty then g.defaultRequestExtractors else serviceMatchList

/-- The Twirp-to-gRPC code table of `impl From<TwirpErrorCode> for tonic::Code`
(error/src/lib.rs lines 352-376). -/
def grpcCodeForTwirpCode : TwirpErrorCode → GrpcCode
  | .canceled => .cancelled
  | .unknown => .unknown
  | .invalidArgument => .invalidArgument
  | .malformed => .invalidArgument
  | .deadlineExceeded => .deadlineExceeded
  | .notFound => .notFound
  | .badRoute => .notFound
  | .alreadyExists => .alreadyExists
  | .permissionDenied => .permissionDenied
  | .unauthenticated => .unauthenticated
  | .resourceExhausted => .resourceExhausted
  | .failedPrecondition => .failedPrecondition
  | .aborted => .aborted
  | .outOfRange => .outOfRange
  | .unimplemented => .unimplemented
  | .internal => .internal
  | .unavailable => .unavailable
  | .dataloss => .dataLoss

/-- `impl From<TwirpError> for tonic::Status` (error/src/lib.rs lines
379-392): when the error wraps a `tonic::Status` whose code equals the mapped
code and whose message equals the error message, that status is returned as
is; otherwise a fresh status is built from the mapped code and the message. -/
def statusFromTwirpError (e : TwirpError) : GrpcStatus :=
  match e.source with
  | some (.status s) =>
    if s.code = grpcCodeForTwirpCode e.code ∧ s.message = e.msg then s
    else ⟨grpcCodeForTwirpCode e.code, e.msg, []⟩
  | _ => ⟨grpcCodeForTwirpCode e.code, e.msg, []⟩

/-- `grpc_status_for_twirp_error` (server/src/codegen.rs lines 528-553): the
conversion applied to a `TwirpError` returned by a handler dispatched through
`GrpcRouter`. The code table is inlined in the source and reproduced arm by
arm; `tonic::Status::new` carries no details. -/
def grpcStatusForTwirpError (e : TwirpError) : GrpcStatus :=
  { code :=
      match e.code with
      | .canceled => .cancelled
      | .unknown => .unknown
      | .invalidArgument => .invalidArgument
      | .malformed => .invalidArgument
      | .deadlineExceeded => .deadlineExceeded
      | .notFound => .notFound
      | .badRoute => .notFound
      | .alreadyExists => .alreadyExists
      | .permissionDenied => .permissionDenied
      | .unauthenticated => .unauthenticated
      | .resourceExhausted => .resourceExhausted
      | .failedPrecondition => .failedPrecondition
      | .aborted => .aborted
      | .outOfRange => .outOfRange
      | .unimplemented => .unimplemented
      | .internal => .internal
      | .unavailable => .unavailable
      | .dataloss => .dataLoss
    message := e.msg
    details := [] }

/-- `twirp_fallback` (server/src/lib.rs lines 19-24) composed with the axum
`IntoResponse` instance of `TwirpError`, which is `TwirpError.toResponse`. -/
def twirpFallback (uriPath : String) : HttpResponse :=
  (TwirpError.new .badRoute (uriPath ++ " is not a supported Twirp method")).toResponse

/-- The prost/prost-reflect message capability as the runtime consumes it
(an external collaborator): `wire` is the binary protobuf encoding written by
`encode` (so `encoded_len` is its length), `encodeFail` describes a failing
`encode` as its `Result` signature permits, and `jsonResult` is the outcome
of `transcode_to_dynamic()` followed by serde JSON serialization. -/
structure ProtoMessage where
  wire : List Nat
  encodeFail : Option String
  jsonResult : Except String (List Nat)
  deriving Repr

/-- `Message::encoded_len`. -/
def ProtoMessage.encodedLen (m : ProtoMessage) : Nat :=
  m.wire.length

/-- `Message::encode` into a growable buffer: the wire bytes, or the error
its signature permits. -/
def ProtoMessage.encode (m : ProtoMessage) : Except String (List Nat) :=
  match m.encodeFail with
  | some d => .error d
  | none => .ok m.wire

/-- The client `TwirpHttpClient` state that request building reads:
the optional base URL and the JSON flag. -/
structure TwirpHttpClient where
  baseUrl : Option String
  useJson : Bool
  deriving DecidableEq, Repr

/-- `json_encode` (client/src/lib.rs lines 341-354): serde serialization of
the transcoded dynamic message; a failure maps to `malformed`. -/
def clientJsonEncode (message : ProtoMessage) : Except TwirpError (List Nat) :=
  match message.jsonResult with
  | .ok b => .ok b
  | .error d =>
    .error (TwirpError.wrap .malformed ("Failed to serialize request to JSON: " ++ d)
      (.other d))

/-- An HTTP request as `build_request` produces it. -/
structure HttpRequest where
  method : String
  uri : String
  contentType : String
  body : List Nat
  deriving DecidableEq, Repr

/-- `TwirpHttpClient::build_request` (client/src/lib.rs lines 168-203).
`constructFail` models a failure of the `http::Request` builder's `body`
call (an invalid URI or header), an external collaborator outcome. -/
def buildRequest (c : TwirpHttpClient) (path : String) (message : ProtoMessage)
    (constructFail : Option String) : Except TwirpError HttpRequest :=
  let uri :=
    match c.baseUrl with
    | some b => b ++ path
    | none => path
  if c.useJson then
    match clientJsonEncode message with
    | .error e => .error e
    | .ok body =>
      match constructFail with
      | some d =>
        .error (TwirpError.wrap .malformed ("Failed to construct request: " ++ d) (.other d))
      | none => .ok ⟨"POST", uri, "application/json", body⟩
  else
    match message.encode with
    | .error d =>
      .error (TwirpError.wrap .internal ("Failed to serialize to protobuf: " ++ d) (.other d))
    | .ok body =>
      match constructFail with
      | some d =>
        .error (TwirpError.wrap .malformed ("Failed to construct request: " ++ d) (.other d))
      | none => .ok ⟨"POST", uri, "application/protobuf", body⟩

/-- Big-endian 4-byte encoding of a 32-bit value (`BufMut::put_u32`). -/
def u32be (n : Nat) : List Nat :=
  [n / 2 ^ 24 % 256, n / 2 ^ 16 % 256, n / 2 ^ 8 % 256, n % 256]

/-- The first `map` stage of `serialize_stream_response` for the binary
stream (server/src/codegen.rs lines 228-248): an `Ok` item becomes the frame
`[0][encoded_len as u32 BE][encoding]`, an overlong message becomes an
`internal` error, and stream errors pass through. -/
def protobufStreamChunk (item : Except TwirpError ProtoMessage) :
    Except TwirpError (List Nat) :=
  match item with
  | .error e => .error e
  | .ok chunk =>
    let chunkLen := chunk.encodedLen
    if chunkLen < 2 ^ 32 then
      match chunk.encode with
      | .ok bytes => .ok (0 :: (u32be chunkLen ++ bytes))
      | .error d =>
        .error (TwirpError.wrap .internal ("Failed to serialize to protobuf: " ++ d)
          (.other d))
    else
      .error (TwirpError.wrap .internal "Too large message, its length must fit in 32bits"
        (.other "out of range integral type conversion attempted"))

/-- The second `map` stage (server/src/codegen.rs lines 249-262): an error is
transmitted as the frame `[48][json length as u32 BE, 0 on overflow][json]`
where the payload is the serde JSON serialization of the `TwirpError`. -/
def protobufStreamFrame (item : Except TwirpError ProtoMessage) : List Nat :=
  match protobufStreamChunk item with
  | .ok buffer => buffer
  | .error e =>
    let j := utf8Bytes (twirpErrorJson e)
    48 :: (u32be (if j.length < 2 ^ 32 then j.length else 0) ++ j)

/-- Claim C3: serializing a `TwirpError` to an HTTP response produces the
status given by the fixed table: canceled, deadline_exceeded → 408; unknown,
internal → 500; invalid_argument, malformed, out_of_range → 400; not_found,
bad_route → 404; already_exists, aborted → 409; permission_denied → 403;
unauthenticated → 401; resource_exhausted → 429; failed_precondition → 412;
unimplemented → 501; unavailable, dataloss → 503. -/
theorem claim_c3_http_status_table (e : TwirpError) :
    e.toResponse.status =
      match e.code with
      | .canceled | .deadlineExceeded => 408
      | .unknown | .internal => 500
      | .invalidArgument | .malformed | .outOfRange => 400
      | .notFound | .badRoute => 404
      | .alreadyExists | .aborted => 409
      | .permissionDenied => 403
      | .unauthenticated => 401
      | .resourceExhausted => 429
      | .failedPrecondition => 412
      | .unimplemented => 501
      | .unavailable | .dataloss => 503 := by
  cases e with
  | mk code msg meta src => cases code <;> rfl

/-- Claim C4, counterexample: `sub_path_iter(".")` does not yield exactly
`["."]` — the chain appends the global `"."` unconditionally, so the root
path is yielded twice. -/
theorem claim_c4_counterexample : subPathIter "." ≠ ["."] := by
  decide

/-- Claim C4 as amended: `sub_path_iter(".a.b.c.d")` yields exactly
`[".a.b.c.d", "a.b.c.d", "b.c.d", "c.d", "d", ".a.b.c", ".a.b", ".a", "."]`,
and for the root path `sub_path_iter(".")` yields exactly `[".", "."]` (the
path itself followed by the unconditional global entry; no suffixes and no
strict path parents). -/
theorem claim_c4_sub_path_iter :
    subPathIter ".a.b.c.d" =
      [".a.b.c.d", "a.b.c.d", "b.c.d", "c.d", "d", ".a.b.c", ".a.b", ".a", "."] ∧
    subPathIter "." = [".", "."] ∧
    pathSuffixes "." = [] ∧ pathParents "." = [] := by
  decide

/-- Claim C9: the Twirp fallback answers every unmatched path with HTTP
status 404 and a `bad_route` JSON body whose message is
`"<path> is not a supported Twirp method"`; at the path `/` the body is
byte-for-byte `{"code":"bad_route","msg":"/ is not a supported Twirp method"}`. -/
theorem claim_c9_fallback :
    (∀ path : String,
      (twirpFallback path).status = 404 ∧
      (twirpFallback path).body =
        utf8Bytes (twirpErrorJson
          (TwirpError.new .badRoute (path ++ " is not a supported Twirp method")))) ∧
    (twirpFallback "/").body =
      utf8Bytes "\x7b\"code\":\"bad_route\",\"msg\":\"/ is not a supported Twirp method\"\x7d" := by
  refine ⟨fun path => ⟨rfl, rfl⟩, ?_⟩
  decide

/-- Claim C10: converting an `http::Response` whose extensions hold a
`TwirpError` returns that stored error, whatever the status, body and body
parse outcome; hence `from_response(to_response(e)) = e` for every error,
non-empty `meta` included. -/
theorem claim_c10_extension_roundtrip :
    (∀ (parse : List Nat → Option TwirpError) (status : Nat) (ct : Option String)
        (body : List Nat) (e : TwirpError),
      twirpErrorFromResponse parse ⟨status, ct, some e, body⟩ = e) ∧
    (∀ (parse : List Nat → Option TwirpError) (e : TwirpError),
      twirpErrorFromResponse parse e.toResponse = e) :=
  ⟨fun _ _ _ _ _ => rfl, fun _ _ => rfl⟩

/-- A `tonic::Status` with non-empty details, wrapped into a `TwirpError`
with the matching code and message (as `From<tonic::Status> for TwirpError`
builds it). -/
def c1WrappedStatus : GrpcStatus :=
  ⟨.notFound, "foo", [7]⟩

/-- The `TwirpError` wrapping `c1WrappedStatus`. -/
def c1Error : TwirpError :=
  TwirpError.wrap .notFound "foo" (.status c1WrappedStatus)

/-- Claim C1, counterexample: a `TwirpError` wrapping a status with matching
code and message and non-empty details is NOT returned verbatim by the
conversion the `GrpcRouter` dispatch applies (`grpc_status_for_twirp_error`):
that conversion always builds a fresh detail-free status. -/
theorem claim_c1_counterexample :
    c1Error.source = some (.status c1WrappedStatus) ∧
    c1WrappedStatus.code = grpcCodeForTwirpCode c1Error.code ∧
    c1WrappedStatus.message = c1Error.msg ∧
    grpcStatusForTwirpError c1Error ≠ c1WrappedStatus := by
  decide

/-- Claim C1 as amended: the standalone conversion
(`From<TwirpError> for tonic::Status`) returns a wrapped status verbatim when
its code equals the mapped code and its message equals the error message, and
builds a fresh status from the mapped code and the message otherwise; the
conversion used for handlers dispatched through `GrpcRouter`
(`grpc_status_for_twirp_error`) always builds a fresh detail-free status from
the mapped code and the error's message. -/
theorem claim_c1_grpc_status_conversion (e : TwirpError) :
    grpcStatusForTwirpError e = ⟨grpcCodeForTwirpCode e.code, e.msg, []⟩ ∧
    (∀ s : GrpcStatus, e.source = some (.status s) →
      s.code = grpcCodeForTwirpCode e.code → s.message = e.msg →
      statusFromTwirpError e = s) ∧
    ((∀ s : GrpcStatus, e.source = some (.status s) →
        ¬(s.code = grpcCodeForTwirpCode e.code ∧ s.message = e.msg)) →
      statusFromTwirpError e = ⟨grpcCodeForTwirpCode e.code, e.msg, []⟩) := by
  refine ⟨?_, ?_, ?_⟩
  · cases e with
    | mk code msg meta src => cases code <;> rfl
  · intro s hs hc hm
    unfold statusFromTwirpError
    rw [hs]
    simp [hc, hm]
  · intro h
    cases e with
    | mk code msg meta src =>
      cases src with
      | none => rfl
      | some s =>
        cases s with
        | status st =>
          have hne := h st rfl
          simp [statusFromTwirpError, hne]
        | other d => rfl

/-- Claim C1 witness: on the error wrapping a matching status with details,
the standalone conversion preserves the status and the `GrpcRouter`
conversion drops the details. -/
theorem claim_c1_witness :
    statusFromTwirpError c1Error = c1WrappedStatus ∧
    grpcStatusForTwirpError c1Error = ⟨.notFound, "foo", []⟩ :=
  ⟨(claim_c1_grpc_status_conversion c1Error).2.1 c1WrappedStatus rfl (by decide) rfl,
   (claim_c1_grpc_status_conversion c1Error).1⟩

set_option maxHeartbeats 1000000 in
/-- Claim C2: converting a response without a stored extension error to a
`TwirpError` uses the body directly when it parses as canonical `TwirpError`
JSON; otherwise the code is synthesized from the HTTP status — 408 →
deadline_exceeded, 403 → permission_denied, 401 → unauthenticated, 429 →
resource_exhausted (the first match, ahead of the unavailable group), 412 →
failed_precondition, 501 → unimplemented, 502/503/504 → unavailable, 404 →
not_found, other 5xx → internal, other 4xx → malformed, anything else →
unknown — and the message is the body decoded as lossy UTF-8. -/
theorem claim_c2_inbound_mapping (parse : List Nat → Option TwirpError)
    (status : Nat) (ct : Option String) (body : List Nat) :
    (∀ e : TwirpError, parse body = some e →
      twirpErrorFromResponse parse ⟨status, ct, none, body⟩ = e) ∧
    (parse body = none →
      twirpErrorFromResponse parse ⟨status, ct, none, body⟩ =
        TwirpError.new (twirpCodeForStatus status) (fromUtf8Lossy body)) ∧
    twirpCodeForStatus 408 = .deadlineExceeded ∧
    twirpCodeForStatus 403 = .permissionDenied ∧
    twirpCodeForStatus 401 = .unauthenticated ∧
    twirpCodeForStatus 429 = .resourceExhausted ∧
    twirpCodeForStatus 412 = .failedPrecondition ∧
    twirpCodeForStatus 501 = .unimplemented ∧
    twirpCodeForStatus 502 = .unavailable ∧
    twirpCodeForStatus 503 = .unavailable ∧
    twirpCodeForStatus 504 = .unavailable ∧
    twirpCodeForStatus 404 = .notFound ∧
    (∀ s : Nat, 500 ≤ s → s ≤ 599 → s ≠ 501 → s ≠ 502 → s ≠ 503 → s ≠ 504 →
      twirpCodeForStatus s = .internal) ∧
    (∀ s : Nat, 400 ≤ s → s ≤ 499 → s ≠ 408 → s ≠ 403 → s ≠ 401 → s ≠ 429 →
      s ≠ 412 → s ≠ 404 → twirpCodeForStatus s = .malformed) ∧
    (∀ s : Nat, ¬(400 ≤ s ∧ s ≤ 599) → twirpCodeForStatus s = .unknown) := by
  refine ⟨?_, ?_, by decide, by decide, by decide, by decide, by decide, by decide,
    by decide, by decide, by decide, by decide, ?_, ?_, ?_⟩
  · intro e he
    unfold twirpErrorFromResponse
    simp only [he]
  · intro hn
    unfold twirpErrorFromResponse
    simp only [hn]
  · intro s h1 h2 h3 h4 h5 h6
    unfold twirpCodeForStatus
    split_ifs <;> first | rfl | omega
  · intro s h1 h2 h3 h4 h5 h6 h7 h8
    unfold twirpCodeForStatus
    split_ifs <;> first | rfl | omega
  · intro s h
    unfold twirpCodeForStatus
    split_ifs <;> first | rfl | omega

/-- Claim C2 witness: a plain 403 response whose body is
`Thou shall not pass` (not `TwirpError` JSON) decodes to
`permission_denied("Thou shall not pass")`. -/
theorem claim_c2_witness :
    twirpErrorFromResponse (fun _ => none)
        ⟨403, none, none, utf8Bytes "Thou shall not pass"⟩ =
      TwirpError.new .permissionDenied "Thou shall not pass" := by
  have h := (claim_c2_inbound_mapping (fun _ => none) 403 none
    (utf8Bytes "Thou shall not pass")).2.1 rfl
  rw [h]
  decide

/-- Helper: `Iter::is_match` tests exactly the membership of the matcher in
`sub_path_iter` of the iterated path. -/
theorem isMatch_iff (path matcher : String) :
    isMatch path matcher = true ↔ matcher ∈ subPathIter path := by
  simp [isMatch]

/-- Helper: the Bool form of `isMatch_iff`. -/
theorem isMatch_eq_decide_mem (path matcher : String) :
    isMatch path matcher = decide (matcher ∈ subPathIter path) := by
  by_cases h : matcher ∈ subPathIter path
  · simp [h, (isMatch_iff path matcher).mpr h]
  · rw [decide_eq_false h]
    cases hm : isMatch path matcher with
    | false => rfl
    | true => exact absurd ((isMatch_iff path matcher).mp hm) h

/-- Helper for claim C5: with at least `length` fuel, repeatedly calling
`Iter::next` yields the values of the matching pairs, in list order, each
pair contributing at most once. -/
theorem iterUnfold_eq_filter_map {V : Type} (path : String) :
    ∀ (l : List (String × V)) (fuel : Nat), l.length ≤ fuel →
      iterUnfold path fuel l = (l.filter fun pv => isMatch path pv.1).map Prod.snd := by
  intro l
  induction l with
  | nil =>
    intro fuel _
    cases fuel <;> simp [iterUnfold, iterNext]
  | cons hd tl ih =>
    intro fuel hfuel
    cases fuel with
    | zero => simp at hfuel
    | succ f =>
      obtain ⟨p, v⟩ := hd
      have htl : tl.length ≤ f := by simpa using hfuel
      by_cases hm : isMatch path p = true
      · simp [iterUnfold, iterNext, hm, ih f htl]
      · have hstep : iterUnfold path (f + 1) ((p, v) :: tl) = iterUnfold path (f + 1) tl := by
          simp [iterUnfold, iterNext, hm]
        rw [hstep, ih (f + 1) (Nat.le_succ_of_le htl)]
        simp [hm]

/-- Claim C5: for every `ProtoPathMap` and fq path, `fq_path_matches` (and
`service_matches` at the service's `.<package>.<proto_name>` path) yields
exactly the values of the inserted pairs whose matcher is a member of
`sub_path_iter(fq)`, in insertion order; every pair is yielded at most once
(the output is never longer than the matcher list), and when no matcher is a
member the iterator is empty. -/
theorem claim_c5_path_map_matches {V : Type} (m : ProtoPathMap V) (fq : String)
    (svc : Service) :
    m.fqPathMatches fq =
      (m.matchers.filter fun pv => decide (pv.1 ∈ subPathIter fq)).map Prod.snd ∧
    m.serviceMatches svc =
      (m.matchers.filter fun pv =>
        decide (pv.1 ∈ subPathIter (serviceFqPath svc))).map Prod.snd ∧
    (m.fqPathMatches fq).length ≤ m.matchers.length ∧
    ((∀ pv ∈ m.matchers, pv.1 ∉ subPathIter fq) → m.fqPathMatches fq = []) := by
  have hfm : ∀ (path : String),
      iterAll path m.matchers =
        (m.matchers.filter fun pv => decide (pv.1 ∈ subPathIter path)).map Prod.snd := by
    intro path
    rw [iterAll, iterUnfold_eq_filter_map path m.matchers m.matchers.length le_rfl]
    congr 1
    exact List.filter_congr fun pv _ => isMatch_eq_decide_mem path pv.1
  refine ⟨hfm fq, hfm (serviceFqPath svc), ?_, ?_⟩
  · rw [ProtoPathMap.fqPathMatches, hfm fq, List.length_map]
    exact List.length_filter_le _ _
  · intro h
    rw [ProtoPathMap.fqPathMatches, hfm fq]
    have : m.matchers.filter (fun pv => decide (pv.1 ∈ subPathIter fq)) = [] := by
      simp only [List.filter_eq_nil_iff]
      intro pv hpv
      simp [h pv hpv]
    rw [this, List.map_nil]

/-- Claim C5 witness: a map whose single matcher `.x.y` does not match the
fq path `.a.b` yields the empty list. -/
theorem claim_c5_witness :
    (ProtoPathMap.mk [((".x.y" : String), (1 : Nat))]).fqPathMatches ".a.b" = [] :=
  (claim_c5_path_map_matches (ProtoPathMap.mk [((".x.y" : String), (1 : Nat))])
    ".a.b" ⟨"a", "b"⟩).2.2.2 (by decide)

/-- Claim C6: the extractor list used by the code generator for a service is
the non-empty result of `service_matches` over the service-specific
extractors when one exists, and the default extractor list otherwise; a
non-empty service-specific match completely replaces the defaults. -/
theorem claim_c6_extractor_selection (g : TwirpServiceGenerator) (svc : Service) :
    (g.matchedRequestExtractors.serviceMatches svc ≠ [] →
      doGenerateExtractors g svc = g.matchedRequestExtractors.serviceMatches svc) ∧
    (g.matchedRequestExtractors.serviceMatches svc = [] →
      doGenerateExtractors g svc = g.defaultRequestExtractors) := by
  constructor
  · intro h
    unfold doGenerateExtractors
    rw [if_neg (by simpa [List.isEmpty_iff] using h)]
  · intro h
    unfold doGenerateExtractors
    rw [if_pos (by simpa [List.isEmpty_iff] using h)]

/-- A generator with one default extractor and one extractor specific to the
service path `.pkg.B`, built through the configuration methods. -/
def c6Gen : TwirpServiceGenerator :=
  ((TwirpServiceGenerator.mk [] ⟨[]⟩).withDefaultAxumRequestExtractor
      "bearer" "BearerToken").withServiceSpecificAxumRequestExtractor
    "specific" "SpecificExtractor" ".pkg.B"

/-- Claim C6 witness: service `B` of package `pkg` gets exactly the
service-specific extractor (replacement, not addition), while service `A`
gets the default extractor. -/
theorem claim_c6_witness :
    doGenerateExtractors c6Gen ⟨"pkg", "B"⟩ = [("specific", "SpecificExtractor")] ∧
    doGenerateExtractors c6Gen ⟨"pkg", "A"⟩ = [("bearer", "BearerToken")] :=
  ⟨((claim_c6_extractor_selection c6Gen ⟨"pkg", "B"⟩).1 (by decide)).trans (by decide),
   (claim_c6_extractor_selection c6Gen ⟨"pkg", "A"⟩).2 (by decide)⟩

/-- A binary-codec client and a message whose binary `encode` fails. -/
def c7Client : TwirpHttpClient := ⟨none, false⟩

/-- A message whose binary `encode` reports a failure. -/
def c7Message : ProtoMessage := ⟨[], some "buffer full", .ok []⟩

/-- Claim C7, counterexample: when serializing the request message in binary
protobuf fails, `build_request` returns an `internal` error (source:
client/src/lib.rs lines 184-191), not a `malformed` one. -/
theorem claim_c7_counterexample :
    buildRequest c7Client "/pkg.Svc/M" c7Message none =
      .error (TwirpError.wrap .internal "Failed to serialize to protobuf: buffer full"
        (.other "buffer full")) ∧
    TwirpErrorCode.internal ≠ TwirpErrorCode.malformed :=
  ⟨rfl, by decide⟩

/-- Claim C7 as amended: when building the request fails, the error code is
`malformed` for a JSON serialization failure and for an HTTP request
construction failure, but `internal` for a binary protobuf serialization
failure. -/
theorem claim_c7_build_request_errors (c : TwirpHttpClient) (path : String)
    (m : ProtoMessage) (constructFail : Option String) (e : TwirpError)
    (h : buildRequest c path m constructFail = .error e) :
    (c.useJson = true → e.code = .malformed) ∧
    (c.useJson = false → m.encodeFail = none → e.code = .malformed) ∧
    (c.useJson = false → m.encodeFail ≠ none → e.code = .internal) := by
  unfold buildRequest at h
  refine ⟨fun hj => ?_, fun hj hn => ?_, fun hj hn => ?_⟩
  · rw [hj] at h
    simp only [if_true] at h
    unfold clientJsonEncode at h
    cases hjr : m.jsonResult with
    | ok b =>
      rw [hjr] at h
      cases constructFail with
      | none => simp at h
      | some d =>
        simp only [] at h
        cases h with
        | refl => rfl
    | error d =>
      rw [hjr] at h
      cases h with
      | refl => rfl
  · rw [hj] at h
    simp only [Bool.false_eq_true, if_false] at h
    unfold ProtoMessage.encode at h
    rw [hn] at h
    cases constructFail with
    | none => simp at h
    | some d =>
      simp only [] at h
      cases h with
      | refl => rfl
  · rw [hj] at h
    simp only [Bool.false_eq_true, if_false] at h
    unfold ProtoMessage.encode at h
    cases hef : m.encodeFail with
    | none => exact absurd hef hn
    | some d =>
      rw [hef] at h
      cases h with
      | refl => rfl

/-- Claim C7 witness (for the amended claim): a JSON-codec client whose
message fails to serialize gets a `malformed` error. -/
theorem claim_c7_witness :
    (TwirpError.wrap TwirpErrorCode.malformed
        "Failed to serialize request to JSON: bad json" (.other "bad json")).code =
      TwirpErrorCode.malformed :=
  (claim_c7_build_request_errors ⟨none, true⟩ "/pkg.Svc/M" ⟨[], none, .error "bad json"⟩
    none _ rfl).1 rfl

/-- Claim C8: on the binary stream transport every item becomes one frame
`[flags: u8][length: u32 BE][payload]`: an `Ok` message (that encodes, with
encoded length below 2^32) yields flag 0 with the encoded protobuf as
payload; an `Err` yields flag 48 with the error's canonical JSON as payload;
a message whose encoded length does not fit in 32 bits is reported as the
`internal` "Too large message" error frame. -/
theorem claim_c8_stream_framing (m : ProtoMessage) (e : TwirpError) :
    (m.encodeFail = none → m.wire.length < 2 ^ 32 →
      protobufStreamFrame (.ok m) = 0 :: (u32be m.wire.length ++ m.wire)) ∧
    ((utf8Bytes (twirpErrorJson e)).length < 2 ^ 32 →
      protobufStreamFrame (.error e) =
        48 :: (u32be (utf8Bytes (twirpErrorJson e)).length ++ utf8Bytes (twirpErrorJson e))) ∧
    (2 ^ 32 ≤ m.wire.length →
      protobufStreamFrame (.ok m) =
        protobufStreamFrame (.error (TwirpError.wrap .internal
          "Too large message, its length must fit in 32bits"
          (.other "out of range integral type conversion attempted")))) := by
  refine ⟨fun h1 h2 => ?_, fun h => ?_, fun h => ?_⟩
  · have h2' : m.wire.length < 4294967296 := by omega
    simp [protobufStreamFrame, protobufStreamChunk, ProtoMessage.encodedLen,
      ProtoMessage.encode, h1, h2']
  · have h' : (utf8Bytes (twirpErrorJson e)).length < 4294967296 := by omega
    simp [protobufStreamFrame, protobufStreamChunk, h']
  · have hn : ¬m.wire.length < 4294967296 := by omega
    simp [protobufStreamFrame, protobufStreamChunk, ProtoMessage.encodedLen, hn]

/-- A three-byte message for the claim C8 witness. -/
def c8Message : ProtoMessage := ⟨[1, 2, 3], none, .ok []⟩

/-- Claim C8 witness: the concrete frames for a three-byte message, for a
`not_found` error, and for a message too large for a 32-bit length. -/
theorem claim_c8_witness :
    protobufStreamFrame (.ok c8Message) = 0 :: (u32be c8Message.wire.length ++ c8Message.wire) ∧
    protobufStreamFrame (.error (TwirpError.new .notFound "foo")) =
      48 :: (u32be (utf8Bytes (twirpErrorJson (TwirpError.new .notFound "foo"))).length ++
        utf8Bytes (twirpErrorJson (TwirpError.new .notFound "foo"))) ∧
    protobufStreamFrame (.ok ⟨List.replicate (2 ^ 32) 0, none, .ok []⟩) =
      protobufStreamFrame (.error (TwirpError.wrap .internal
        "Too large message, its length must fit in 32bits"
        (.other "out of range integral type conversion attempted"))) :=
  ⟨(claim_c8_stream_framing c8Message (TwirpError.new .notFound "foo")).1 rfl (by decide),
   (claim_c8_stream_framing c8Message (TwirpError.new .notFound "foo")).2.1 (by decide),
   (claim_c8_stream_framing ⟨List.replicate (2 ^ 32) 0, none, .ok []⟩
     (TwirpError.new .notFound "foo")).2.2 (by rw [List.length_replicate])⟩

end Twurst
